import Mathlib

/-!
Verification of the goncurses wrapper (ncurses.go).

The repository is a single-file cgo binding over the ncurses C library.
This file shallowly embeds the Go layer: the read-only lookup tables
(attrList, colorList, keyList, mouseEvents) become association lists, the
wrapper functions become Lean functions over explicit inputs, and the C
side is represented by its documented contract where a claim depends on it
(wgetnstr storage behaviour, the WINDOW struct fields, C return codes as
Bool parameters). Go runtime faults (index out of range, failed type
assertion, negative make length) are modelled as an explicit GoPanic
error channel, distinct from the os.Error values the wrapper returns.
The Go package holds no mutable state of its own: its only package-level
variables are the four constant tables, so sequences of wrapper calls are
modelled as per-call functions of their own inputs.
-/

namespace Goncurses

/-- Attribute names are plain strings in the source (type Attribute string). -/
abbrev Attribute := String

/-- Go map read with the ok flag (v, ok := m[k]) over a string-keyed table. -/
def mapGet (l : List (String × Nat)) (k : String) : Option Nat :=
  (l.find? (fun p => p.1 == k)).map (fun p => p.2)

/-- Go map read without the ok flag: a missing key yields the zero value 0. -/
def mapGetD (l : List (String × Nat)) (k : String) : Nat :=
  (mapGet l k).getD 0

/-- Go map read with the ok flag over the int-keyed key table. -/
def mapGetZ (l : List (Int × String)) (k : Int) : Option String :=
  (l.find? (fun p => p.1 == k)).map (fun p => p.2)

/-- attrList from ncurses.go; the C attribute constants are the ncurses
header values (A_STANDOUT = 1 shifted left 16, and so on; A_NORMAL = 0,
A_CHARTEXT = 255). -/
def attrList : List (String × Nat) :=
  [("normal", 0),
   ("standout", 65536),
   ("underline", 131072),
   ("reverse", 262144),
   ("blink", 524288),
   ("dim", 1048576),
   ("bold", 2097152),
   ("protect", 16777216),
   ("invis", 8388608),
   ("altcharset", 4194304),
   ("chartext", 255)]

/-- colorList from ncurses.go with the standard COLOR_ constants. -/
def colorList : List (String × Nat) :=
  [("black", 0), ("red", 1), ("green", 2), ("yellow", 3),
   ("blue", 4), ("magenta", 5), ("cyan", 6), ("white", 7)]

/-- KEY_F0 from the ncurses header (octal 0410). -/
def KEY_F0 : Int := 264

/-- keyList from ncurses.go; key codes are the ncurses header constants
(KEY_DOWN = 258 .. KEY_BACKSPACE = 263, KEY_F0 = 264 through KEY_F0 + 12,
KEY_ENTER = 343, KEY_MOUSE = 409). -/
def keyList : List (Int × String) :=
  [(9, "tab"),
   (10, "enter"),
   (258, "down"),
   (259, "up"),
   (260, "left"),
   (261, "right"),
   (262, "home"),
   (263, "backspace"),
   (264, "F0"),
   (265, "F1"),
   (266, "F2"),
   (267, "F3"),
   (268, "F4"),
   (269, "F5"),
   (270, "F6"),
   (271, "F7"),
   (272, "F8"),
   (273, "F9"),
   (274, "F10"),
   (275, "F11"),
   (276, "F12"),
   (343, "enter"),
   (409, "mouse")]

/-- mouseEvents from ncurses.go; the BUTTON constants are the ncurses
mouse-version-1 header values (button n, mode m: m shifted left by
6 * (n - 1); the modifier masks sit above bit 24). -/
def mouseEvents : List (String × Nat) :=
  [("button1-pressed", 2),
   ("button1-released", 1),
   ("button1-clicked", 4),
   ("button1-double-clicked", 8),
   ("button1-triple-clicked", 16),
   ("button2-pressed", 128),
   ("button2-released", 64),
   ("button2-clicked", 256),
   ("button2-double-clicked", 512),
   ("button2-triple-clicked", 1024),
   ("button3-pressed", 8192),
   ("button3-released", 4096),
   ("button3-clicked", 16384),
   ("button3-double-clicked", 32768),
   ("button3-triple-clicked", 65536),
   ("button4-pressed", 524288),
   ("button4-released", 262144),
   ("button4-clicked", 1048576),
   ("button4-double-clicked", 2097152),
   ("button4-triple-clicked", 4194304),
   ("shift", 33554432),
   ("ctrl", 16777216),
   ("alt", 67108864),
   ("all", 134217727),
   ("position", 134217728)]

/-- Errors produced by Window.Attron / Window.Attroff. The source builds
them with fmt.Sprintf from the offending attribute name; we keep the
constructor and the name rather than replicating Sprintf text. -/
inductive AttrErr where
  | invalidAttribute (a : Attribute)
  | failedToSet (a : Attribute)
  | failedToUnset (a : Attribute)
deriving DecidableEq

/-- Window.AddChar: cattr is the fold of attrList map reads (zero value on
a miss) over the variadic attributes, and the chtype handed to C.waddch is
ch bitwise-or cattr. AddChar has no error return in the source; its whole
observable effect at this layer is this composed value. -/
def AddChar (ch : Nat) (attributes : List Attribute) : Nat :=
  ch ||| attributes.foldl (fun cattr attr => cattr ||| mapGetD attrList attr) 0

/-- Window.Attron: looks the name up with the ok flag, records an
invalid-attribute error on a miss, then calls C.wattron with the looked-up
value (0 on a miss); a C failure (cOk = false) overwrites the error.
Returns the attribute value passed to C and the final error. -/
def Attron (attrstr : Attribute) (cOk : Bool) : Nat × Option AttrErr :=
  let attr := mapGetD attrList attrstr
  let err0 : Option AttrErr :=
    if (mapGet attrList attrstr).isSome then none
    else some (AttrErr.invalidAttribute attrstr)
  (attr, if cOk then err0 else some (AttrErr.failedToSet attrstr))

/-- Window.Attroff: same shape as Attron with C.wattroff. -/
def Attroff (attrstr : Attribute) (cOk : Bool) : Nat × Option AttrErr :=
  let attr := mapGetD attrList attrstr
  let err0 : Option AttrErr :=
    if (mapGet attrList attrstr).isSome then none
    else some (AttrErr.invalidAttribute attrstr)
  (attr, if cOk then err0 else some (AttrErr.failedToUnset attrstr))

/-- InitPair from ncurses.go. colorPairs is the C global COLOR_PAIRS
(terminal dependent), pair is the Go byte argument, cOk whether the C
init_pair call succeeds. Result is the os.Error message string, none on
success, with the exact source strings (the source issues the
"Invalid foreground color" text for the background check as well). -/
def InitPair (colorPairs : Int) (pair : Nat) (fg bg : String) (cOk : Bool) :
    Option String :=
  if pair = 0 ∨ (pair : Int) > colorPairs - 1 then
    some "Invalid color pair selected"
  else if (mapGet colorList fg).isNone then
    some "Invalid foreground color"
  else if (mapGet colorList bg).isNone then
    some "Invalid foreground color"
  else if cOk then none
  else some "Failed to init color pair"

/-- MouseMask from ncurses.go: folds mousemask over the variadic names with
a zero-value map read (an unknown name reads as 0). The registered C mask
is the fold result; the function returns nothing in the source. -/
def MouseMask (masks : List String) : Nat :=
  masks.foldl (fun mousemask mask => mousemask ||| mapGetD mouseEvents mask) 0

/-- The union of the bit patterns of exactly the recognized names, written
the way the specification phrases it, to compare with MouseMask. -/
def recognizedUnion (names : List String) : Nat :=
  (names.filterMap (fun s => mapGet mouseEvents s)).foldl (fun m v => m ||| v) 0

/-- fmt.Sprintf with the c verb on an int, as Key's fallback uses it: a
valid non-surrogate code point renders as that character, anything else as
the replacement character U+FFFD. -/
def literalChar (k : Int) : String :=
  if 0 ≤ k ∧ k ≤ 1114111 ∧ ¬ (55296 ≤ k ∧ k ≤ 57343) then
    String.mk [Char.ofNat k.toNat]
  else "�"

/-- Key from ncurses.go: keyList lookup with the ok flag, falling back to
rendering the code as a literal character. -/
def Key (k : Int) : String :=
  match mapGetZ keyList k with
  | some s => s
  | none => literalChar k

/-- The WINDOW struct fields the Go code reads directly (C shorts _cury,
_curx, _maxy, _maxx). -/
structure CWindow where
  cury : Int
  curx : Int
  maxy : Int
  maxx : Int
deriving DecidableEq

/-- C short (int16) arithmetic wrap, as Go applies to _maxy + 1 before
widening to int. -/
def wrap16 (x : Int) : Int := (x + 32768) % 65536 - 32768

/-- Window.Maxyx: returns int(_maxy + 1), int(_maxx + 1), the addition
performed at int16 width. -/
def Maxyx (w : CWindow) : Int × Int :=
  (wrap16 (w.maxy + 1), wrap16 (w.maxx + 1))

/-- Window.Getyx: returns int(_cury), int(_curx). -/
def Getyx (w : CWindow) : Int × Int :=
  (w.cury, w.curx)

/-- A value in Go's empty-interface variadic list; Window.Print dispatches
on whether the dynamic type is int (reflect.TypeOf(...).String() == "int").
The claims only need int and string arguments; any other dynamic type
behaves like the string case for the dispatch test and faults at the
string type assertion. -/
inductive GoVal where
  | i (n : Int)
  | s (v : String)
deriving DecidableEq

/-- A Go runtime fault: aborts the caller instead of being returned as an
os.Error value. -/
inductive GoPanic where
  | indexOutOfRange
  | typeAssertionString
  | makesliceNegativeLen
deriving DecidableEq

/-- The C call Window.Print ends in: mvwaddstr(y, x, s) or waddstr(s),
where s = fmt.Sprintf(fmtString, fmtArgs...); the formatted text is kept
as the (fmtString, fmtArgs) pair since no claim depends on rendering. -/
inductive PrintCall where
  | mvwaddstr (y x : Int) (fmtString : String) (fmtArgs : List GoVal)
  | waddstr (fmtString : String) (fmtArgs : List GoVal)
deriving DecidableEq

/-- Window.Print from ncurses.go: count, y, x start at zero; if there are
at least two arguments and args[0] is an int it becomes y (count 1); if
there are at least three arguments and args[1] is an int it becomes x
(count incremented, with no check that the first test matched); then
args[count] is asserted to be the format string (a fault when count is out
of range or the value is not a string), and the call is mvwaddstr when
count > 0, waddstr otherwise. -/
def Print (args : List GoVal) : Except GoPanic PrintCall :=
  let yc : Int × Nat :=
    if args.length > 1 then
      match args[0]? with
      | some (GoVal.i n) => (n, 1)
      | _ => (0, 0)
    else (0, 0)
  let xc : Int × Nat :=
    if args.length > 2 then
      match args[1]? with
      | some (GoVal.i n) => (n, yc.2 + 1)
      | _ => (0, yc.2)
    else (0, yc.2)
  match args[xc.2]? with
  | none => Except.error GoPanic.indexOutOfRange
  | some (GoVal.i _) => Except.error GoPanic.typeAssertionString
  | some (GoVal.s fmtString) =>
    if xc.2 > 0 then
      Except.ok (PrintCall.mvwaddstr yc.1 xc.1 fmtString (args.drop (xc.2 + 1)))
    else
      Except.ok (PrintCall.waddstr fmtString (args.drop (xc.2 + 1)))

/-- The characters the C wgetnstr stores: it accepts input characters up to
the newline terminator and stores at most maxlen of them (extra ones are
beeped at, not stored). Modelled from the ncurses curs_getstr contract. -/
def acceptedChars (input : List Char) (maxlen : Nat) : List Char :=
  (input.takeWhile (fun c => c != '\n')).take maxlen

/-- The buffer indexes the C wgetnstr writes: the accepted characters at
indexes 0 .. k - 1 and the terminating NUL at index k, where k is the
number of accepted characters. Modelled from the ncurses curs_getstr
contract: the result is a NUL-terminated string of at most maxlen
characters, so the buffer must have room for maxlen + 1 bytes. -/
def wgetnstrWrites (input : List Char) (maxlen : Nat) : List Nat :=
  List.range (acceptedChars input maxlen).length ++
    [(acceptedChars input maxlen).length]

/-- Observable outcome of one GetString call: the length of the buffer the
Go code allocates, the buffer indexes the C side writes, and the string
returned (C.GoString reads up to the NUL). -/
structure GetStringExec where
  bufferLen : Nat
  writes : List Nat
  result : String
deriving DecidableEq

/-- Window.GetString from ncurses.go: cstr := make([]C.char, n) — a fault
for negative n — then C.wgetnstr(w, &cstr[0], n) — taking the address of
element 0 faults when n = 0 — and the accepted characters are returned
via C.GoString. -/
def GetString (n : Int) (input : List Char) : Except GoPanic GetStringExec :=
  if n < 0 then Except.error GoPanic.makesliceNegativeLen
  else if n = 0 then Except.error GoPanic.indexOutOfRange
  else Except.ok
    { bufferLen := n.toNat
      writes := wgetnstrWrites input n.toNat
      result := String.mk (acceptedChars input n.toNat) }

/-- One Window operation at the Go layer, paired with the return code of
its underlying C call where the source inspects one. -/
inductive WinOp where
  | delete (cOk : Bool)
  | attron (a : Attribute) (cOk : Bool)
  | attroff (a : Attribute) (cOk : Bool)
  | addch (ch : Nat) (attrs : List Attribute)
  | clear (cOk : Bool)
deriving DecidableEq

/-- The error-or-success outcome one Window operation reports. -/
inductive Outcome where
  | noErr
  | errMsg (s : String)
  | errAttr (e : AttrErr)
deriving DecidableEq

/-- The result each Window method returns, from the source: Delete reports
"Failed to delete window" when C.delwin fails and otherwise returns nil
(its `w = nil` assignment only rebinds the local parameter); Attron and
Attroff report per their definitions above; AddChar returns nothing;
Clear reports only a C failure. The Go package keeps no record of deleted
windows — there is no per-window liveness state anywhere in the source —
so an operation's outcome is a function of that operation alone. -/
def runOp : WinOp → Outcome
  | WinOp.delete cOk =>
    if cOk then Outcome.noErr else Outcome.errMsg "Failed to delete window"
  | WinOp.attron a cOk =>
    match (Attron a cOk).2 with
    | none => Outcome.noErr
    | some e => Outcome.errAttr e
  | WinOp.attroff a cOk =>
    match (Attroff a cOk).2 with
    | none => Outcome.noErr
    | some e => Outcome.errAttr e
  | WinOp.addch _ _ => Outcome.noErr
  | WinOp.clear cOk =>
    if cOk then Outcome.noErr else Outcome.errMsg "Failed to clear screen"

/-- A sequence of Window operations on one handle: since the Go layer is
stateless, the trace of outcomes is the per-operation map. -/
def runTrace (ops : List WinOp) : List Outcome :=
  ops.map runOp

/-- Init from ncurses.go: calls C.initscr and errors exactly when the
returned pointer is nil (modelled as 0). No other condition is checked;
the package has no session flag. Returns the window pointer and the
os.Error message. -/
def Init (cPtr : Nat) : Nat × Option String :=
  (cPtr, if cPtr = 0 then some "An error occurred initializing ncurses" else none)

/-- A sequence of Init calls, each with the pointer C.initscr returns that
time (ncurses returns the existing non-nil stdscr on a repeated initscr
call); the Go layer threads no state between them. -/
def runInits (ptrs : List Nat) : List (Nat × Option String) :=
  ptrs.map Init

/-- Folding bitwise-or with a zero-value map read equals folding the
successful lookups only: a missing key contributes the zero value, which
is the identity of bitwise or. -/
theorem foldl_or_mapGetD_eq_filterMap (l : List (String × Nat)) :
    ∀ (names : List String) (acc : Nat),
      names.foldl (fun c a => c ||| mapGetD l a) acc
        = (names.filterMap (fun s => mapGet l s)).foldl (fun m v => m ||| v) acc := by
  intro names
  induction names with
  | nil => intro _; rfl
  | cons a t ih =>
    intro acc
    cases hm : mapGet l a with
    | none =>
      simp only [List.foldl_cons, List.filterMap_cons, hm]
      have h0 : mapGetD l a = 0 := by simp [mapGetD, hm]
      rw [h0, Nat.or_zero]
      exact ih acc
    | some v =>
      simp only [List.foldl_cons, List.filterMap_cons, hm]
      have h0 : mapGetD l a = v := by simp [mapGetD, hm]
      rw [h0]
      exact ih (acc ||| v)

/-- The union of the bit patterns of exactly the recognized attribute
names, written the way the specification phrases composition, to compare
with AddChar. -/
def attrUnion (attrs : List Attribute) : Nat :=
  (attrs.filterMap (fun s => mapGet attrList s)).foldl (fun m v => m ||| v) 0

/-- C1: evaluation of GetString at the failing input. GetString 5 with ten
queued characters stores exactly the first five and returns them as the
string, but the buffer the Go code allocates has exactly five bytes
(bufferLen = 5) while the C side also writes the terminating NUL at index
5 — one byte past the bound. -/
theorem getString_overflow :
    ∃ e, GetString 5 (String.toList "abcdefghij") = Except.ok e
      ∧ e.bufferLen = 5
      ∧ (5 : Nat) ∈ e.writes
      ∧ e.result = "abcde"
      ∧ (acceptedChars (String.toList "abcdefghij") 5).length = 5 := by
  exact ⟨{ bufferLen := 5, writes := [0, 1, 2, 3, 4, 5], result := "abcde" },
    rfl, rfl, by decide, rfl, by decide⟩

/-- C2: evaluation of the Print dispatch. The one- and two-leading-integer
forms and the plain form behave as documented, but a call with zero
leading integers whose second argument is an integer format operand
(Print "%v %v" 1 2) is mis-dispatched: the code takes args[1] as an x
coordinate and then faults on the string type assertion instead of
printing at the current cursor. -/
theorem print_dispatch_eval :
    Print [GoVal.s "%v %v", GoVal.i 1, GoVal.i 2]
      = Except.error GoPanic.typeAssertionString
    ∧ Print [GoVal.s "hello"] = Except.ok (PrintCall.waddstr "hello" [])
    ∧ Print [GoVal.i 5, GoVal.s "hi"]
      = Except.ok (PrintCall.mvwaddstr 5 0 "hi" [])
    ∧ Print [GoVal.i 5, GoVal.i 10, GoVal.s "hi"]
      = Except.ok (PrintCall.mvwaddstr 5 10 "hi" []) :=
  ⟨rfl, rfl, rfl, rfl⟩

/-- C3: evaluation of the fault cases. GetString 0 faults indexing an
empty slice, GetString of a negative length faults in make, Print with a
single integer, with only integers, or with no arguments faults instead of
returning an error value. -/
theorem ops_surface_faults_eval :
    GetString 0 [] = Except.error GoPanic.indexOutOfRange
    ∧ GetString (-1) [] = Except.error GoPanic.makesliceNegativeLen
    ∧ Print [GoVal.i 5] = Except.error GoPanic.typeAssertionString
    ∧ Print [GoVal.i 5, GoVal.i 7] = Except.error GoPanic.typeAssertionString
    ∧ Print [] = Except.error GoPanic.indexOutOfRange :=
  ⟨rfl, rfl, rfl, rfl, rfl⟩

/-- C4 counterexample: "bogus" is not a recognized attribute name, yet
AddChar composes it away silently — the composed chtype with it equals the
one without it, and AddChar has no error return at all, contradicting the
claim that an unrecognized name always yields an UnknownAttribute error
and is never silently dropped. -/
theorem addChar_silent_drop_counterexample :
    mapGet attrList "bogus" = none
    ∧ AddChar 65 ["bold", "bogus"] = AddChar 65 ["bold"]
    ∧ AddChar 65 ["bogus"] = 65 := by
  decide

/-- C4 amended: AddChar composes exactly the union of the recognized
names' bits, an unrecognized name contributing nothing (appending one
leaves the composite unchanged) with no error reported, while Attron and
Attroff do return an error for an unrecognized name. -/
theorem attr_compose_amended (ch : Nat) (attrs : List Attribute)
    (a : Attribute) (cOk : Bool) (h : mapGet attrList a = none) :
    AddChar ch attrs = ch ||| attrUnion attrs
    ∧ AddChar ch (attrs ++ [a]) = AddChar ch attrs
    ∧ (Attron a cOk).2.isSome = true
    ∧ (Attroff a cOk).2.isSome = true := by
  refine ⟨?_, ?_, ?_, ?_⟩
  · unfold AddChar attrUnion
    rw [foldl_or_mapGetD_eq_filterMap attrList attrs 0]
  · unfold AddChar
    rw [List.foldl_append]
    simp only [List.foldl_cons, List.foldl_nil]
    have h0 : mapGetD attrList a = 0 := by simp [mapGetD, h]
    rw [h0, Nat.or_zero]
  · unfold Attron
    cases cOk <;> simp [h]
  · unfold Attroff
    cases cOk <;> simp [h]

/-- C4 amended witness: the amended statement at the concrete attribute
lists, with "bogus" the unrecognized name. -/
theorem attr_compose_amended_witness :
    AddChar 65 ["bold", "bogus"] = 65 ||| attrUnion ["bold", "bogus"]
    ∧ AddChar 65 (["bold"] ++ ["bogus"]) = AddChar 65 ["bold"]
    ∧ (Attron "bogus" true).2.isSome = true
    ∧ (Attroff "bogus" true).2.isSome = true := by
  have h1 := attr_compose_amended 65 ["bold", "bogus"] "bogus" true (by decide)
  have h2 := attr_compose_amended 65 ["bold"] "bogus" true (by decide)
  exact ⟨h1.1, h2.2.1, h2.2.2.1, h2.2.2.2⟩

/-- C5: InitPair validation. A pair id of 0, or at least the terminal's
COLOR_PAIRS limit, is rejected as an invalid pair id (in particular id 0
and id = COLOR_PAIRS both fail); with a valid id, an unrecognized
foreground or background color name is rejected with the source's
unknown-color error string. The byte hypothesis records the Go argument
type. -/
theorem initPair_validation (colorPairs : Int) (pair : Nat) (fg bg : String)
    (cOk : Bool) (hbyte : pair < 256) :
    ((pair = 0 ∨ (pair : Int) ≥ colorPairs) →
      InitPair colorPairs pair fg bg cOk = some "Invalid color pair selected")
    ∧ (pair ≠ 0 → (pair : Int) < colorPairs → mapGet colorList fg = none →
      InitPair colorPairs pair fg bg cOk = some "Invalid foreground color")
    ∧ (pair ≠ 0 → (pair : Int) < colorPairs → mapGet colorList bg = none →
      InitPair colorPairs pair fg bg cOk = some "Invalid foreground color") := by
  refine ⟨fun h => ?_, fun h1 h2 h3 => ?_, fun h1 h2 h3 => ?_⟩
  · unfold InitPair
    rw [if_pos]
    rcases h with h | h
    · exact Or.inl h
    · exact Or.inr (by omega)
  · unfold InitPair
    rw [if_neg (by push_neg; exact ⟨h1, by omega⟩), if_pos (by simp [h3])]
  · unfold InitPair
    rw [if_neg (by push_neg; exact ⟨h1, by omega⟩)]
    cases hf : mapGet colorList fg with
    | none => rw [if_pos (by simp [hf])]
    | some v => rw [if_neg (by simp [hf]), if_pos (by simp [h3])]

/-- C5 witness: with COLOR_PAIRS = 64, pair ids 0 and 64 fail as invalid
pair ids, and unknown color names on either side fail with the source's
unknown-color string. -/
theorem initPair_validation_witness :
    InitPair 64 0 "red" "blue" true = some "Invalid color pair selected"
    ∧ InitPair 64 64 "red" "blue" true = some "Invalid color pair selected"
    ∧ InitPair 64 3 "teal" "blue" true = some "Invalid foreground color"
    ∧ InitPair 64 3 "red" "teal" true = some "Invalid foreground color" := by
  have h0 := initPair_validation 64 0 "red" "blue" true (by decide)
  have h1 := initPair_validation 64 64 "red" "blue" true (by decide)
  have h2 := initPair_validation 64 3 "teal" "blue" true (by decide)
  have h3 := initPair_validation 64 3 "red" "teal" true (by decide)
  exact ⟨h0.1 (Or.inl rfl), h1.1 (Or.inr (by decide)),
    h2.2.1 (by decide) (by decide) (by decide),
    h3.2.2 (by decide) (by decide) (by decide)⟩

/-- C6: MouseMask is the bitwise union of the bit patterns of the
recognized names, unrecognized names contributing nothing rather than
erroring, and a list of only unrecognized names yields the zero mask. -/
theorem mouseMask_union (names : List String) :
    MouseMask names = recognizedUnion names
    ∧ ((∀ s ∈ names, mapGet mouseEvents s = none) → MouseMask names = 0) := by
  have key : MouseMask names = recognizedUnion names :=
    foldl_or_mapGetD_eq_filterMap mouseEvents names 0
  refine ⟨key, fun h => ?_⟩
  rw [key]
  unfold recognizedUnion
  have hf : names.filterMap (fun s => mapGet mouseEvents s) = [] := by
    rw [List.filterMap_eq_nil_iff]
    exact h
  rw [hf]
  rfl

/-- C6 witness: an unrecognized event name alone yields the zero mask, and
a recognized list matches the recognized-names union. -/
theorem mouseMask_union_witness :
    MouseMask ["nonexistent-event"] = 0
    ∧ MouseMask ["button1-clicked", "shift"]
      = recognizedUnion ["button1-clicked", "shift"] := by
  have h1 := mouseMask_union ["nonexistent-event"]
  have h2 := mouseMask_union ["button1-clicked", "shift"]
  exact ⟨h1.2 (by decide), h2.1⟩

/-- C7: Key decodes KEY_F0 + n to the string Fn for every n in 0..12, and
any code outside the fixed table is rendered as a literal character. -/
theorem key_decode :
    (∀ n : Nat, n ≤ 12 → Key (KEY_F0 + (n : Int)) = "F" ++ toString n)
    ∧ (∀ k : Int, mapGetZ keyList k = none → Key k = literalChar k) := by
  constructor
  · intro n hn
    interval_cases n <;> decide
  · intro k h
    unfold Key
    rw [h]

/-- C7 witness: the function-key scheme at n = 1 and the literal fallback
at the letter a. -/
theorem key_decode_witness :
    Key (KEY_F0 + ((1 : Nat) : Int)) = "F" ++ toString (1 : Nat)
    ∧ Key 97 = literalChar 97
    ∧ literalChar 97 = "a" :=
  ⟨key_decode.1 1 (by decide), key_decode.2 97 (by decide), by decide⟩

/-- C8 counterexample: a successful Delete followed by Attroff on a
recognized attribute with a succeeding C call returns no error at all —
the subsequent operation does not fail with a stale-window error,
contradicting the claim that every operation after destruction does. -/
theorem delete_then_op_counterexample :
    runTrace [WinOp.delete true, WinOp.attroff "bold" true]
      = [Outcome.noErr, Outcome.noErr] := by
  decide

/-- C8 amended: the Go layer keeps no window liveness state, so the
outcome of each operation is a function of that operation alone — in any
trace, the operation after any prefix (deletes included) yields exactly
its own per-operation outcome, and a successful Delete itself reports no
error. A destroyed window is passed on to the C library unchanged; no
StaleWindowError exists and destroying a parent marks no descendant. -/
theorem window_ops_no_stale_tracking (pre : List WinOp) (op : WinOp) :
    runTrace (pre ++ [op]) = runTrace pre ++ [runOp op]
    ∧ runOp (WinOp.delete true) = Outcome.noErr := by
  constructor
  · unfold runTrace
    simp
  · rfl

/-- C8 amended witness: the amended statement on a concrete trace whose
prefix is a successful delete. -/
theorem window_ops_no_stale_tracking_witness :
    runTrace ([WinOp.delete true] ++ [WinOp.attron "bold" true])
      = runTrace [WinOp.delete true] ++ [runOp (WinOp.attron "bold" true)]
    ∧ runOp (WinOp.delete true) = Outcome.noErr :=
  window_ops_no_stale_tracking [WinOp.delete true] (WinOp.attron "bold" true)

/-- C9 counterexample: two Init calls in a row, the C initscr returning
the existing non-nil screen (pointer 1) both times, both succeed — the
second returns the root window again with no error, contradicting the
claim that re-initialization fails with an InitializationError. -/
theorem init_twice_counterexample :
    runInits [1, 1] = [(1, none), (1, none)] := by
  decide

/-- C9 amended: Init reports an error exactly when the C initscr returns a
nil pointer; the Go layer holds no session flag, so the outcome of an Init
call is independent of any earlier calls in the trace. -/
theorem init_error_iff_null (cPtr : Nat) (ps : List Nat) :
    ((Init cPtr).2 = none ↔ cPtr ≠ 0)
    ∧ runInits (ps ++ [cPtr]) = runInits ps ++ [Init cPtr] := by
  constructor
  · unfold Init
    by_cases h : cPtr = 0 <;> simp [h]
  · unfold runInits
    simp

/-- C9 amended witness: a non-nil initscr result yields no error. -/
theorem init_error_iff_null_witness : (Init 1).2 = none :=
  (init_error_iff_null 1 []).1.mpr (by decide)

/-- C10: Maxyx returns (_maxy + 1, _maxx + 1) — each component one more
than the window's maximum cursor coordinate — whenever the int16 addition
does not wrap, and under the C library's cursor invariant the coordinates
Getyx returns are strictly below the Maxyx dimensions. -/
theorem maxyx_bounds (w : CWindow)
    (hmy : w.maxy + 1 < 32768) (hmx : w.maxx + 1 < 32768)
    (hy0 : 0 ≤ w.cury) (hy : w.cury ≤ w.maxy)
    (hx0 : 0 ≤ w.curx) (hx : w.curx ≤ w.maxx) :
    Maxyx w = (w.maxy + 1, w.maxx + 1)
    ∧ (Getyx w).1 < (Maxyx w).1
    ∧ (Getyx w).2 < (Maxyx w).2 := by
  have e1 : wrap16 (w.maxy + 1) = w.maxy + 1 := by unfold wrap16; omega
  have e2 : wrap16 (w.maxx + 1) = w.maxx + 1 := by unfold wrap16; omega
  refine ⟨?_, ?_, ?_⟩
  · unfold Maxyx
    rw [e1, e2]
  · show w.cury < wrap16 (w.maxy + 1)
    rw [e1]
    omega
  · show w.curx < wrap16 (w.maxx + 1)
    rw [e2]
    omega

/-- C10 witness: a 24 x 80 window with the cursor at (5, 10). -/
theorem maxyx_bounds_witness :
    Maxyx ⟨5, 10, 23, 79⟩ = (24, 80)
    ∧ (Getyx ⟨5, 10, 23, 79⟩).1 < (Maxyx ⟨5, 10, 23, 79⟩).1
    ∧ (Getyx ⟨5, 10, 23, 79⟩).2 < (Maxyx ⟨5, 10, 23, 79⟩).2 := by
  have h := maxyx_bounds ⟨5, 10, 23, 79⟩ (by decide) (by decide) (by decide)
    (by decide) (by decide) (by decide)
  refine ⟨?_, h.2.1, h.2.2⟩
  rw [h.1]
  decide

end Goncurses
